import Mathlib

/-!
Shallow embedding of the transaction-construction and validation core of the
everstake-wallet-sdk repository (Ethereum, Polygon and Berrachain chain
adapters), translated from the TypeScript sources:

* the Ethereum and Berrachain adapters, `src/unnamed/part_005`;
* the Polygon adapter, `src/polygon/src/index.ts`.

Modelling conventions, used throughout:

* `BigNumber` (arbitrary-precision decimal) values are modelled as `ℚ`;
  on-chain base-unit (wei) integers are modelled as `Nat`.
* Every on-chain read performed by a method (`readContract`, `estimateGas`,
  `simulateContract`) is an input of the embedding: the values the RPC client
  would return are fields of an environment record passed to the function.
  The adapters never cache reads, so one record per call is faithful.
* `encodeFunctionData` is external to the repository (viem) and is assumed
  correct by the specification; it is modelled as the injective constructor
  of `CallData`, which pairs the ABI function name with the argument list.
* `isAddress` (viem) is external as well and is modelled as an arbitrary
  `String → Bool` passed in the dependency record.
* Amount strings are represented by their parsed base-unit value
  (`parseUnits(amount, 18)`), a `Nat`; the ether-scale decimal the source
  obtains as `new BigNumber(amount)` is recovered exactly as `fromWei`.
* TypeScript `throw` / `try { } catch` is modelled with `Except`:
  a `catch (e) { this.handleError(code, e) }` block becomes
  `Except.mapError (handleError code)` applied to the body of the `try`.
-/

/-- One argument of an ABI-encoded contract call: a numeric value (amounts in
wei, counts, nonces) or an address string. -/
inductive CallArg where
  | num (n : Nat)
  | addr (a : String)
deriving DecidableEq, Repr

/-- Model of `encodeFunctionData(abi, fn, args)`: the specification treats ABI
encoding as an assumed-correct pure injective function, so the embedding keeps
the function name and arguments themselves as the call data. -/
structure CallData where
  fn : String
  args : List CallArg
deriving DecidableEq, Repr

/-- Model of `fromWeiToEther` / viem `formatUnits(wei, 18)`: the wei integer
read from the chain as an 18-decimal ether value, `BigNumber.shiftedBy(-18)`. -/
def fromWei (w : Nat) : ℚ := (w : ℚ) / (10 ^ 18 : ℚ)

theorem fromWei_nonneg (w : Nat) : 0 ≤ fromWei w := by
  unfold fromWei
  positivity

theorem fromWei_eq_zero_iff (w : Nat) : fromWei w = 0 ↔ w = 0 := by
  unfold fromWei
  rw [div_eq_zero_iff]
  norm_num

theorem fromWei_pos_iff (w : Nat) : 0 < fromWei w ↔ fromWei w ≠ 0 := by
  constructor
  · intro h
    exact ne_of_gt h
  · intro h
    exact lt_of_le_of_ne (fromWei_nonneg w) (Ne.symm h)

/-- One call against the RPC client capability. Methods are instrumented with
a trace of these where a claim speaks about which remote calls are reached. -/
inductive RpcCall where
  | estimateGas (toAddr : String) (fn : String)
  | readContract (fn : String)
deriving DecidableEq, Repr

/-- Detail argument substituted into an error message by `throwErr`
(`balance.toString()`, `minStake.toString()`, a network name, ...). -/
inductive ErrDetail where
  | num (q : ℚ)
  | str (s : String)
deriving DecidableEq, Repr

/-- The Ethereum error codes of `ERROR_MESSAGES` that the embedded
operations can raise (src/unnamed/part_005). -/
inductive EthErrorCode where
  | ADDRESS_FORMAT_ERROR
  | WRONG_TYPE_MESSAGE
  | MIN_AMOUNT_ERROR
  | MAX_AMOUNT_FOR_UNSTAKE_ERROR
  | ZERO_UNSTAKE_ERROR
  | ZERO_UNSTAKE_MESSAGE
  | AMOUNT_GREATER_THAN_PENDING_BALANCE_ERROR
  | INSUFFICIENT_PENDING_BALANCE_ERROR
  | NOT_FILLED_UNSTAKE_MESSAGE
  | NO_REWARDS_MESSAGE
  | NETWORK_NOT_SUPPORTED
  | PENDING_BALANCE_OF_ERROR
  | AUTOCOMPOUND_BALANCE_OF_ERROR
  | WITHDRAW_REQUEST_ERROR
  | MIN_STAKE_AMOUNT_ERROR
  | STAKE_ERROR
  | UNSTAKE_ERROR
  | SIMULATE_UNSTAKE_ERROR
  | UNSTAKE_PENDING_ERROR
  | CLAIM_WITHDRAW_REQUEST_ERROR
deriving DecidableEq, Repr

/-- A failure leaving an Ethereum-adapter method: either a structured
`{ code, message }` error built by `throwErr`, or a raw transport error
(never produced in this embedding, where reads are given as values, but kept
so that `handleError` has its wrapping branch). -/
inductive EthFailure where
  | coded (code : EthErrorCode) (detail : Option ErrDetail)
  | raw (msg : String)
deriving DecidableEq, Repr

/-- Modelled from the spec: `Blockchain.throwErr(code, ...detailArgs)` of the
shared base class (its source, utils/index.ts, is not among the provided
files). Per the spec it looks the code up in the ERROR_MESSAGES table, formats
the message substituting the detail args, and fails with a structured error
carrying code and message; the embedding keeps the code and the substituted
detail. -/
def throwErr (code : EthErrorCode) (detail : Option ErrDetail) : EthFailure :=
  EthFailure.coded code detail

/-- Modelled from the spec: `Blockchain.handleError(code, caughtError)` of the
shared base class (source not among the provided files). Per the spec, an
error already carrying one of the known codes of the adapter is rethrown
unchanged, anything else is wrapped under the given code. -/
def handleError (code : EthErrorCode) (e : EthFailure) : EthFailure :=
  match e with
  | EthFailure.coded c d => EthFailure.coded c d
  | EthFailure.raw m => EthFailure.coded code (some (ErrDetail.str m))

/-- One row of `ETH_NETWORK_ADDRESSES` (src/unnamed/part_006 declares the
shape; the constant table itself sits in a constants file that is not among
the provided sources, so the embedding is parametric in the table). -/
structure EthNetworkAddresses where
  addressContractAccounting : String
  addressContractPool : String
  addressContractWithdrawTreasury : String
  rpcUrl : String
deriving DecidableEq, Repr

/-- The rebindable per-instance state of the `Ethereum` class: the RPC client
(represented by the transport URL it was created from) and the contract
bindings set by `initializeNetwork`. -/
structure EthAdapterState where
  accountingAddress : String
  poolAddress : String
  withdrawTreasuryAddress : String
  clientUrl : String
deriving DecidableEq, Repr

/-- Externals of the Ethereum adapter that live outside the provided sources:
the viem address validator and the constants `ETH_MIN_AMOUNT` and
`ETH_GAS_RESERVE` (their constants file is not among the provided sources, so
their values are parameters). -/
structure EthDeps where
  isAddress : String → Bool
  minAmountWei : Nat
  gasReserve : Nat

/-- Results of the on-chain reads one Ethereum-adapter call can perform, in
wei exactly as `readContract` / `estimateGas` return them. -/
structure EthReads where
  autocompoundBalanceOfWei : Nat
  pendingBalanceOfWei : Nat
  minStakeAmountWei : Nat
  withdrawRequestedWei : Nat
  withdrawReadyWei : Nat
  estimateGas : Nat
deriving DecidableEq, Repr

/-- The unsigned transaction record the Ethereum adapter returns
(`EthTransaction`): `{ from, to, value, gasLimit, data }`. `value` is the
integer wei amount the source carries as a `BigNumber`. -/
structure EthTransaction where
  fromAddr : String
  toAddr : String
  value : Nat
  gasLimit : Nat
  data : CallData
deriving DecidableEq, Repr

/-- `Ethereum.calculateGasLimit` (src/unnamed/part_005 lines 1610-1614):
`new BigNumber(gasConsumption.toString()).plus(ETH_GAS_RESERVE).toNumber()`.
Both operands are nonnegative integers, so the decimal addition is exact
`Nat` addition; the reserve is a parameter (constants file not provided). -/
def Ethereum.calculateGasLimit (gasConsumption : Nat) (reserve : Nat) : Nat :=
  gasConsumption + reserve

/-- `Ethereum.getTransaction` (src/unnamed/part_005 lines 1510-1529): estimate
gas for the encoded call, then shape the unsigned transaction whose gas limit
is the estimate padded by `calculateGasLimit`. -/
def Ethereum.getTransaction (data : CallData) (address contractAddress : String)
    (value : Nat) (reserve : Nat) (est : Nat) : EthTransaction :=
  { fromAddr := address
    toAddr := contractAddress
    value := value
    gasLimit := Ethereum.calculateGasLimit est reserve
    data := data }

/-- `Ethereum.initializeNetwork` (src/unnamed/part_005 lines 1541-1578): look
the network up in `ETH_NETWORK_ADDRESSES`; unknown identifiers fail with
`NETWORK_NOT_SUPPORTED` carrying the identifier, and this throw stands before
every assignment to the instance, so a failing call changes nothing. On
success the client is rebuilt from the given URL (JS `||`: an empty string
also falls back to the table URL) and all three contract bindings are
rebound. -/
def Ethereum.initializeNetwork (tbl : String → Option EthNetworkAddresses)
    (network : String) (url : Option String) : Except EthFailure EthAdapterState :=
  match tbl network with
  | none => Except.error (throwErr EthErrorCode.NETWORK_NOT_SUPPORTED
      (some (ErrDetail.str network)))
  | some a =>
      let chosenUrl :=
        match url with
        | some u => if u = "" then a.rpcUrl else u
        | none => a.rpcUrl
      Except.ok
        { accountingAddress := a.addressContractAccounting
          poolAddress := a.addressContractPool
          withdrawTreasuryAddress := a.addressContractWithdrawTreasury
          clientUrl := chosenUrl }

/-- `Ethereum.selectNetwork` (src/unnamed/part_005 lines 1504-1508) as a state
transformer: `initializeNetwork` either rebinds the instance or throws, and a
thrown `NETWORK_NOT_SUPPORTED` leaves the previous bindings in place because
it precedes every mutation. -/
def Ethereum.selectNetworkState (tbl : String → Option EthNetworkAddresses)
    (network : String) (url : Option String) (s : EthAdapterState) : EthAdapterState :=
  match Ethereum.initializeNetwork tbl network url with
  | Except.ok s2 => s2
  | Except.error _ => s

/-- `Ethereum.pendingBalanceOf` (src/unnamed/part_005 lines 710-727): address
check, `pendingBalanceOf` contract read, wei converted to ether; the body is
wrapped by `handleError(PENDING_BALANCE_OF_ERROR)`. -/
def Ethereum.pendingBalanceOf (address : String) (deps : EthDeps)
    (env : EthReads) : Except EthFailure ℚ :=
  Except.mapError (handleError EthErrorCode.PENDING_BALANCE_OF_ERROR)
    (if deps.isAddress address = false then
      Except.error (throwErr EthErrorCode.ADDRESS_FORMAT_ERROR none)
    else
      Except.ok (fromWei env.pendingBalanceOfWei))

/-- `Ethereum.autocompoundBalanceOf` (src/unnamed/part_005 lines 906-923). -/
def Ethereum.autocompoundBalanceOf (address : String) (deps : EthDeps)
    (env : EthReads) : Except EthFailure ℚ :=
  Except.mapError (handleError EthErrorCode.AUTOCOMPOUND_BALANCE_OF_ERROR)
    (if deps.isAddress address = false then
      Except.error (throwErr EthErrorCode.ADDRESS_FORMAT_ERROR none)
    else
      Except.ok (fromWei env.autocompoundBalanceOfWei))

/-- `Ethereum.minStakeAmount` (src/unnamed/part_005 lines 1479-1491). -/
def Ethereum.minStakeAmount (env : EthReads) : Except EthFailure ℚ :=
  Except.mapError (handleError EthErrorCode.MIN_STAKE_AMOUNT_ERROR)
    (Except.ok (fromWei env.minStakeAmountWei))

/-- `Ethereum.withdrawRequest` (src/unnamed/part_005 lines 973-995): address
check, `withdrawRequest` contract read, both components converted from wei;
wrapped by `handleError(WITHDRAW_REQUEST_ERROR)`. The pair is
(requested, readyForClaim). -/
def Ethereum.withdrawRequest (address : String) (deps : EthDeps)
    (env : EthReads) : Except EthFailure (ℚ × ℚ) :=
  Except.mapError (handleError EthErrorCode.WITHDRAW_REQUEST_ERROR)
    (if deps.isAddress address = false then
      Except.error (throwErr EthErrorCode.ADDRESS_FORMAT_ERROR none)
    else
      Except.ok (fromWei env.withdrawRequestedWei, fromWei env.withdrawReadyWei))

/-- Modelled from the spec: `UINT16_MAX`, the 16-bit maximum the oversized
`allowedInterchangeNum` is clamped to. The constant sits in the Ethereum
constants file, which is not among the provided sources; the spec fixes its
value as 65535. -/
def UINT16_MAX : Nat := 65535

/-- `Ethereum.stake` (src/unnamed/part_005 lines 1148-1181). The address and
minimum-amount validations stand before the `try` block that builds the
transaction, so a validation failure never reaches the RPC client: the second
component is the trace of RPC-client calls the run performs, and it is empty
on every validation failure. `amountWei` is `new BigNumber(parseUnits(amount,
18))` and is compared with `this.minAmount` at wei scale; the wei amount is
also the `value` of the resulting transaction. The `typeof amount` check
cannot fire in the embedding, where the amount is a string by type. -/
def Ethereum.stake (address : String) (amountWei : Nat) (source : Nat)
    (deps : EthDeps) (s : EthAdapterState) (env : EthReads) :
    Except EthFailure EthTransaction × List RpcCall :=
  if deps.isAddress address = false then
    (Except.error (throwErr EthErrorCode.ADDRESS_FORMAT_ERROR none), [])
  else if amountWei < deps.minAmountWei then
    (Except.error (throwErr EthErrorCode.MIN_AMOUNT_ERROR
        (some (ErrDetail.num (deps.minAmountWei : ℚ)))), [])
  else
    (Except.mapError (handleError EthErrorCode.STAKE_ERROR)
      (Except.ok (Ethereum.getTransaction (CallData.mk "stake" [CallArg.num source])
        address s.poolAddress amountWei deps.gasReserve env.estimateGas)),
     [RpcCall.estimateGas s.poolAddress "stake"])

/-- `Ethereum.unstake` (src/unnamed/part_005 lines 1198-1235): address check
outside the `try`; inside it, the autocompound balance read, the silent clamp
of `allowedInterchangeNum` to `UINT16_MAX`, the balance-sufficiency check
(`balance.lt(new BigNumber(amount))`, at ether scale) failing with
`MAX_AMOUNT_FOR_UNSTAKE_ERROR` carrying `balance.toString()`, and the
transaction build; the catch wraps with `handleError(UNSTAKE_ERROR)`. -/
def Ethereum.unstake (address : String) (amountWei : Nat)
    (allowedInterchangeNum : Nat) (source : Nat)
    (deps : EthDeps) (s : EthAdapterState) (env : EthReads) :
    Except EthFailure EthTransaction :=
  if deps.isAddress address = false then
    Except.error (throwErr EthErrorCode.ADDRESS_FORMAT_ERROR none)
  else
    Except.mapError (handleError EthErrorCode.UNSTAKE_ERROR)
      (match Ethereum.autocompoundBalanceOf address deps env with
      | Except.error e => Except.error e
      | Except.ok balance =>
        let clamped := if allowedInterchangeNum > UINT16_MAX then UINT16_MAX
          else allowedInterchangeNum
        if balance < fromWei amountWei then
          Except.error (throwErr EthErrorCode.MAX_AMOUNT_FOR_UNSTAKE_ERROR
            (some (ErrDetail.num balance)))
        else
          Except.ok (Ethereum.getTransaction
            (CallData.mk "unstake"
              [CallArg.num amountWei, CallArg.num clamped, CallArg.num source])
            address s.poolAddress 0 deps.gasReserve env.estimateGas))

/-- `Ethereum.unstake` called without `allowedInterchangeNum` and `source`:
the declaration defaults them to `0` and `'0'`. -/
def Ethereum.unstakeDefaults (address : String) (amountWei : Nat)
    (deps : EthDeps) (s : EthAdapterState) (env : EthReads) :
    Except EthFailure EthTransaction :=
  Ethereum.unstake address amountWei 0 0 deps s env

/-- `Ethereum.simulateUnstake` (src/unnamed/part_005 lines 1250-1283): the
whole body sits in the `try`; the same balance validation and clamp as
`unstake`, then `simulateContract` on the pool `unstake` function. `sim` is
the external simulation capability: it maps the encoded call to the wei
amount the contract reports, which is returned converted to ether. The catch
wraps with `handleError(SIMULATE_UNSTAKE_ERROR)`. -/
def Ethereum.simulateUnstake (address : String) (amountWei : Nat)
    (allowedInterchangeNum : Nat) (source : Nat)
    (deps : EthDeps) (env : EthReads) (sim : CallData → Nat) :
    Except EthFailure ℚ :=
  Except.mapError (handleError EthErrorCode.SIMULATE_UNSTAKE_ERROR)
    (if deps.isAddress address = false then
      Except.error (throwErr EthErrorCode.ADDRESS_FORMAT_ERROR none)
    else
      match Ethereum.autocompoundBalanceOf address deps env with
      | Except.error e => Except.error e
      | Except.ok balance =>
        let clamped := if allowedInterchangeNum > UINT16_MAX then UINT16_MAX
          else allowedInterchangeNum
        if balance < fromWei amountWei then
          Except.error (throwErr EthErrorCode.MAX_AMOUNT_FOR_UNSTAKE_ERROR
            (some (ErrDetail.num balance)))
        else
          Except.ok (fromWei (sim (CallData.mk "unstake"
            [CallArg.num amountWei, CallArg.num clamped, CallArg.num source]))))

/-- `Ethereum.simulateUnstake` called without `allowedInterchangeNum` and
`source`: the declaration defaults them to `1` and `'0'`. -/
def Ethereum.simulateUnstakeDefaults (address : String) (amountWei : Nat)
    (deps : EthDeps) (env : EthReads) (sim : CallData → Nat) :
    Except EthFailure ℚ :=
  Ethereum.simulateUnstake address amountWei 1 0 deps env sim

/-- `Ethereum.unstakePending` (src/unnamed/part_005 lines 1297-1342): address
check, pending-balance read, zero-pending and amount-exceeds-pending checks
all stand before the `try`; inside it the remainder is computed, the
minimum-stake read and dust check run only when the remainder is nonzero, and
the transaction is built; the catch wraps with
`handleError(UNSTAKE_PENDING_ERROR)`. -/
def Ethereum.unstakePending (address : String) (amountWei : Nat)
    (deps : EthDeps) (s : EthAdapterState) (env : EthReads) :
    Except EthFailure EthTransaction :=
  if deps.isAddress address = false then
    Except.error (throwErr EthErrorCode.ADDRESS_FORMAT_ERROR none)
  else
    match Ethereum.pendingBalanceOf address deps env with
    | Except.error e => Except.error e
    | Except.ok pendingBalance =>
      if pendingBalance = 0 then
        Except.error (throwErr EthErrorCode.ZERO_UNSTAKE_MESSAGE none)
      else
        let bnAmount := fromWei amountWei
        if pendingBalance < bnAmount then
          Except.error (throwErr
            EthErrorCode.AMOUNT_GREATER_THAN_PENDING_BALANCE_ERROR
            (some (ErrDetail.num pendingBalance)))
        else
          Except.mapError (handleError EthErrorCode.UNSTAKE_PENDING_ERROR)
            (let remainder := pendingBalance - bnAmount
            if remainder ≠ 0 then
              match Ethereum.minStakeAmount env with
              | Except.error e => Except.error e
              | Except.ok minStake =>
                if remainder < minStake then
                  Except.error (throwErr
                    EthErrorCode.INSUFFICIENT_PENDING_BALANCE_ERROR
                    (some (ErrDetail.num minStake)))
                else
                  Except.ok (Ethereum.getTransaction
                    (CallData.mk "unstakePending" [CallArg.num amountWei])
                    address s.poolAddress 0 deps.gasReserve env.estimateGas)
            else
              Except.ok (Ethereum.getTransaction
                (CallData.mk "unstakePending" [CallArg.num amountWei])
                address s.poolAddress 0 deps.gasReserve env.estimateGas))

/-- `Ethereum.claimWithdrawRequest` (src/unnamed/part_005 lines 1087-1113):
everything sits in the `try`; the address check, the `withdrawRequest` read,
the zero-request check (`ZERO_UNSTAKE_ERROR`), the strict fill check
(`NOT_FILLED_UNSTAKE_MESSAGE` unless `readyForClaim.eq(requested)`), then the
transaction build against the accounting contract; the catch wraps with
`handleError(CLAIM_WITHDRAW_REQUEST_ERROR)`. -/
def Ethereum.claimWithdrawRequest (address : String) (deps : EthDeps)
    (s : EthAdapterState) (env : EthReads) : Except EthFailure EthTransaction :=
  Except.mapError (handleError EthErrorCode.CLAIM_WITHDRAW_REQUEST_ERROR)
    (if deps.isAddress address = false then
      Except.error (throwErr EthErrorCode.ADDRESS_FORMAT_ERROR none)
    else
      match Ethereum.withdrawRequest address deps env with
      | Except.error e => Except.error e
      | Except.ok (requested, readyForClaim) =>
        if requested = 0 then
          Except.error (throwErr EthErrorCode.ZERO_UNSTAKE_ERROR none)
        else if readyForClaim ≠ requested then
          Except.error (throwErr EthErrorCode.NOT_FILLED_UNSTAKE_MESSAGE none)
        else
          Except.ok (Ethereum.getTransaction
            (CallData.mk "claimWithdrawRequest" [])
            address s.accountingAddress 0 deps.gasReserve env.estimateGas))

/-- `Berrachain.calculateGasLimit` (src/unnamed/part_005 lines 446-448):
`Number(gasConsumption) + GAS_RESERVE`, plain integer addition; the reserve is
a parameter (the Berrachain constants file is not among the provided
sources). -/
def Berrachain.calculateGasLimit (gasConsumption : Nat) (reserve : Nat) : Nat :=
  gasConsumption + reserve

/-- The unsigned transaction record of the Berrachain adapter
(src/unnamed/part_005 lines 476-482). -/
structure BerraTransaction where
  fromAddr : String
  toAddr : String
  value : Nat
  gasLimit : Nat
  data : CallData
deriving DecidableEq, Repr

/-- `Berrachain.getTransaction` (src/unnamed/part_005 lines 419-437):
estimate gas against the BGT contract and shape the transaction with the
padded gas limit. -/
def Berrachain.getTransaction (data : CallData) (address contractAddress : String)
    (reserve : Nat) (est : Nat) : BerraTransaction :=
  { fromAddr := address
    toAddr := contractAddress
    value := 0
    gasLimit := Berrachain.calculateGasLimit est reserve
    data := data }

/-- A plain (uncoded) failure message thrown by the Polygon adapter with
`new Error(...)` rather than through the shared error table. Each constructor
stands for the exact source string given in its comment. -/
inductive PolyPlainMsg where
  /-- The string built in `Polygon.approve`: `Min Amount` followed by
  `formatUnits(BigInt(MIN_AMOUNT.toString()), 18)` and `matic`. -/
  | minAmountApprove (minWei : Nat)
  /-- The string built in `Polygon.delegate`: `Min Amount` followed by
  `MIN_AMOUNT` and `wei matic`. -/
  | minAmountDelegate (minWei : Nat)
  /-- The literal `Nothing to claim` of `Polygon.claimUndelegate`. -/
  | nothingToClaim
  /-- The literal `Current epoch less than withdraw delay` of
  `Polygon.claimUndelegate`. -/
  | epochDelay
  /-- `COMMON_ERROR_MESSAGES.TOKEN_ERROR`, thrown as a plain `Error` when
  `CheckToken` reports the token invalid. -/
  | tokenError
  /-- A failure of the awaited `SetStats` call to the off-chain service. -/
  | setStatsFailed
deriving DecidableEq, Repr

/-- A failure leaving a Polygon-adapter method: either a structured error
carrying a code of the adapter's `ERROR_MESSAGES` vocabulary (built by
`throwError` or by `handleError` wrapping, which keeps the original failure
as the cause), or a plain `Error` carrying only a message. -/
inductive PolyErr where
  | coded (code : String) (cause : Option PolyPlainMsg)
  | plain (msg : PolyPlainMsg)
deriving DecidableEq, Repr

/-- Whether a failure carries a code of the closed per-adapter error
vocabulary (a `{ code, message }` structured error), as opposed to a plain
`Error` with only a message. -/
def PolyErr.carriesCode : PolyErr → Bool
  | PolyErr.coded _ _ => true
  | PolyErr.plain _ => false

/-- Modelled from the spec: `Blockchain.handleError` as used by the Polygon
adapter (the shared base class source is not among the provided files). An
error already carrying a known code is rethrown unchanged; anything else is
wrapped under the given code with the original failure kept as cause. -/
def polyHandleError (code : String) (e : PolyErr) : PolyErr :=
  match e with
  | PolyErr.coded c cause => PolyErr.coded c cause
  | PolyErr.plain m => PolyErr.coded code (some m)

/-- Constants and addresses of the Polygon adapter imported from its
constants file, which is not among the provided sources; the embedding is
parametric in them. -/
structure PolyCfg where
  minAmountWei : Nat
  withdrawEpochDelay : Nat
  delegateBaseGas : Nat
  claimUndelegateBaseGas : Nat
  addressContractBuy : String
  addressContractStaking : String
  addressContractApprove : String
  addressContractApprovePol : String
deriving DecidableEq, Repr

/-- Results of the external calls one Polygon-adapter call can perform:
on-chain reads in wei / raw units as the RPC client returns them, plus the
outcomes of the off-chain token service. `unbondsNew` maps the nonce the
adapter passes to the `(amount, withdrawEpoch)` pair the `unbonds_new` read
returns for it. -/
structure PolyEnv where
  checkTokenOk : Bool
  setStatsOk : Bool
  allowance : Nat
  unbondNoncesRes : Nat
  unbondsNew : Nat → Nat × Nat
  currentEpoch : Nat
  estimateGas : Nat

/-- The unsigned transaction record of the Polygon adapter
(src/polygon/src/types/index.ts): `{ from, to, gasLimit, data }`. -/
structure PolyTransactionRequest where
  fromAddr : String
  toAddr : String
  gasLimit : Nat
  data : CallData
deriving DecidableEq, Repr

/-- `Polygon.getTransaction` (src/polygon/src/index.ts lines 506-523): the
gas limit of the returned transaction is the raw `estimateGas` result, with
no reserve added. -/
def Polygon.getTransaction (data : CallData) (address contractAddress : String)
    (est : Nat) : PolyTransactionRequest :=
  { fromAddr := address
    toAddr := contractAddress
    gasLimit := est
    data := data }

/-- The unbond record `Polygon.getUnbond` returns
(src/polygon/src/types/index.ts `UnbondInfo`); the amount is ether-scale
(`formatUnits(res0, 18)`). -/
structure UnbondInfo where
  amount : ℚ
  withdrawEpoch : Nat
  unbondNonces : Nat
deriving DecidableEq, Repr

/-- `Polygon.getUnbond` (src/polygon/src/index.ts lines 451-476): fetch the
most recent unbond nonce, use it when the caller passed `0n`, read
`unbonds_new` at the resolved nonce, and return the record with the amount
converted to ether. -/
def Polygon.getUnbond (cfg : PolyCfg) (env : PolyEnv) (unbondNonce : Nat) : UnbondInfo :=
  let unbondNoncesRes := env.unbondNoncesRes
  let unbondNonces := if unbondNonce = 0 then unbondNoncesRes else unbondNonce
  let res := env.unbondsNew unbondNonces
  { amount := fromWei res.1
    withdrawEpoch := res.2
    unbondNonces := unbondNonces }

/-- `Polygon.claimUndelegate` (src/polygon/src/index.ts lines 298-333): no
`try` block at all; the unbond record is resolved (`getUnbond`), a zero
amount throws a plain `Nothing to claim` error, an epoch earlier than
`withdrawEpoch + WITHDRAW_EPOCH_DELAY` throws a plain epoch-delay error, and
otherwise the transaction encodes `unstakeClaimTokens_newPOL` or
`unstakeClaimTokens_new` by `isPOL`, applied to the resolved nonce, with the
fixed `CLAIM_UNDELEGATE_BASE_GAS` gas limit. -/
def Polygon.claimUndelegate (address : String) (unbondNonce : Nat) (isPOL : Bool)
    (cfg : PolyCfg) (env : PolyEnv) : Except PolyErr PolyTransactionRequest :=
  let unbond := Polygon.getUnbond cfg env unbondNonce
  if unbond.amount = 0 then
    Except.error (PolyErr.plain PolyPlainMsg.nothingToClaim)
  else if env.currentEpoch < unbond.withdrawEpoch + cfg.withdrawEpochDelay then
    Except.error (PolyErr.plain PolyPlainMsg.epochDelay)
  else
    Except.ok
      { fromAddr := address
        toAddr := cfg.addressContractBuy
        gasLimit := cfg.claimUndelegateBaseGas
        data := CallData.mk
          (if isPOL then "unstakeClaimTokens_newPOL" else "unstakeClaimTokens_new")
          [CallArg.num unbond.unbondNonces] }

/-- `Polygon.approve` (src/polygon/src/index.ts lines 148-176): the
minimum-amount check (`new BigNumber(amountWei).isLessThan(MIN_AMOUNT)`, at
wei scale) throws a plain `Min Amount ... matic` error before the `try` block
that builds the transaction, so that failure performs no RPC call: the second
component is the trace of RPC-client calls, empty on the failure path. The
target contract is the POL or the legacy approval contract by `isPOL`, and
the transaction is built by `getTransaction`, whose gas limit is the raw
estimate; the catch wraps with `handleError(APPROVE_ERR)`. -/
def Polygon.approve (address : String) (amountWei : Nat) (isPOL : Bool)
    (cfg : PolyCfg) (env : PolyEnv) :
    Except PolyErr PolyTransactionRequest × List RpcCall :=
  if amountWei < cfg.minAmountWei then
    (Except.error (PolyErr.plain (PolyPlainMsg.minAmountApprove cfg.minAmountWei)), [])
  else
    let contractAddress :=
      if isPOL then cfg.addressContractApprovePol else cfg.addressContractApprove
    (Except.mapError (polyHandleError "APPROVE_ERR")
      (Except.ok (Polygon.getTransaction
        (CallData.mk "approve"
          [CallArg.addr cfg.addressContractStaking, CallArg.num amountWei])
        address contractAddress env.estimateGas)),
     [RpcCall.estimateGas contractAddress "approve"])

/-- `Polygon.delegate` (src/polygon/src/index.ts lines 185-235): the token is
validated first and an invalid token throws the plain common token error; the
minimum-amount check throws a plain `Min Amount ... wei matic` error before
the `try`; inside it, an allowance that is truthy (nonzero bigint) yet below
the amount fails with the coded `ALLOWANCE_ERR`, the transaction is shaped
with the fixed `DELEGATE_BASE_GAS` gas limit, and the awaited `SetStats` call
runs after the build but before the return, its failure aborting the call;
the catch wraps with `handleError(DELEGATE_ERR)`. -/
def Polygon.delegate (token address : String) (amountWei : Nat) (isPOL : Bool)
    (cfg : PolyCfg) (env : PolyEnv) : Except PolyErr PolyTransactionRequest :=
  if env.checkTokenOk then
    if amountWei < cfg.minAmountWei then
      Except.error (PolyErr.plain (PolyPlainMsg.minAmountDelegate cfg.minAmountWei))
    else
      Except.mapError (polyHandleError "DELEGATE_ERR")
        (let allowedAmount := env.allowance
        if allowedAmount ≠ 0 ∧ allowedAmount < amountWei then
          Except.error (PolyErr.coded "ALLOWANCE_ERR" none)
        else
          let tx : PolyTransactionRequest :=
            { fromAddr := address
              toAddr := cfg.addressContractBuy
              gasLimit := cfg.delegateBaseGas
              data := CallData.mk (if isPOL then "buyVoucherPOL" else "buyVoucher")
                [CallArg.num amountWei, CallArg.num 0] }
          if env.setStatsOk = false then
            Except.error (PolyErr.plain PolyPlainMsg.setStatsFailed)
          else
            Except.ok tx)
  else
    Except.error (PolyErr.plain PolyPlainMsg.tokenError)

/-- C1: for the Ethereum unstake, with a valid address and the autocompound
balance read returning B, the call returns an unsigned transaction exactly
when the requested amount A satisfies A ≤ B, and whenever A > B it fails
with the MAX_AMOUNT_FOR_UNSTAKE_ERROR code whose message carries B. -/
theorem c1_ethereum_unstake_balance_gate
    (address : String) (amountWei allowedInterchangeNum source : Nat)
    (deps : EthDeps) (s : EthAdapterState) (env : EthReads)
    (haddr : deps.isAddress address = true) :
    ((∃ tx, Ethereum.unstake address amountWei allowedInterchangeNum source deps s env
        = Except.ok tx) ↔ fromWei amountWei ≤ fromWei env.autocompoundBalanceOfWei)
    ∧ (fromWei env.autocompoundBalanceOfWei < fromWei amountWei →
        Ethereum.unstake address amountWei allowedInterchangeNum source deps s env
          = Except.error (EthFailure.coded EthErrorCode.MAX_AMOUNT_FOR_UNSTAKE_ERROR
              (some (ErrDetail.num (fromWei env.autocompoundBalanceOfWei))))) := by
  unfold Ethereum.unstake Ethereum.autocompoundBalanceOf
  rw [haddr]
  simp only [Bool.true_eq_false, if_false, Except.mapError, throwErr, handleError]
  by_cases hba : fromWei env.autocompoundBalanceOfWei < fromWei amountWei
  · rw [if_pos hba]
    refine ⟨⟨fun hex => ?_, fun hle => absurd hba (not_lt.mpr hle)⟩, fun _ => rfl⟩
    obtain ⟨tx, htx⟩ := hex
    cases htx
  · rw [if_neg hba]
    exact ⟨⟨fun _ => not_lt.mp hba, fun _ => ⟨_, rfl⟩⟩, fun hlt => absurd hlt hba⟩

/-- Closed instance of C1: at a concrete valid address, balance read 2 ether
and request 1 ether, the hypothesis holds and the gate applies. -/
theorem c1_ethereum_unstake_balance_gate_witness :
    (EthDeps.mk (fun _ => true) 100 5).isAddress "0x01" = true
    ∧ (((∃ tx, Ethereum.unstake "0x01" 1000000000000000000 0 0
          (EthDeps.mk (fun _ => true) 100 5)
          (EthAdapterState.mk "0xacc" "0xpool" "0xtr" "url")
          (EthReads.mk 2000000000000000000 0 0 0 0 21000)
          = Except.ok tx) ↔
        fromWei 1000000000000000000 ≤ fromWei 2000000000000000000)
      ∧ (fromWei 2000000000000000000 < fromWei 1000000000000000000 →
          Ethereum.unstake "0x01" 1000000000000000000 0 0
            (EthDeps.mk (fun _ => true) 100 5)
            (EthAdapterState.mk "0xacc" "0xpool" "0xtr" "url")
            (EthReads.mk 2000000000000000000 0 0 0 0 21000)
            = Except.error (EthFailure.coded EthErrorCode.MAX_AMOUNT_FOR_UNSTAKE_ERROR
                (some (ErrDetail.num (fromWei 2000000000000000000)))))) :=
  ⟨rfl, c1_ethereum_unstake_balance_gate "0x01" 1000000000000000000 0 0
    (EthDeps.mk (fun _ => true) 100 5)
    (EthAdapterState.mk "0xacc" "0xpool" "0xtr" "url")
    (EthReads.mk 2000000000000000000 0 0 0 0 21000) rfl⟩

/-- C2: for the Ethereum claimWithdrawRequest with a valid address, a zero
requested amount fails with ZERO_UNSTAKE_ERROR; a positive requested amount
with readyForClaim different from requested fails with
NOT_FILLED_UNSTAKE_MESSAGE; and a transaction is built exactly when the
request is positive and readyForClaim equals requested. -/
theorem c2_ethereum_claimWithdrawRequest_fill_gate
    (address : String) (deps : EthDeps) (s : EthAdapterState) (env : EthReads)
    (haddr : deps.isAddress address = true) :
    (fromWei env.withdrawRequestedWei = 0 →
      Ethereum.claimWithdrawRequest address deps s env
        = Except.error (EthFailure.coded EthErrorCode.ZERO_UNSTAKE_ERROR none))
    ∧ (0 < fromWei env.withdrawRequestedWei →
        fromWei env.withdrawReadyWei ≠ fromWei env.withdrawRequestedWei →
        Ethereum.claimWithdrawRequest address deps s env
          = Except.error
              (EthFailure.coded EthErrorCode.NOT_FILLED_UNSTAKE_MESSAGE none))
    ∧ ((∃ tx, Ethereum.claimWithdrawRequest address deps s env = Except.ok tx) ↔
        (0 < fromWei env.withdrawRequestedWei
          ∧ fromWei env.withdrawReadyWei = fromWei env.withdrawRequestedWei)) := by
  unfold Ethereum.claimWithdrawRequest Ethereum.withdrawRequest
  rw [haddr]
  simp only [Bool.true_eq_false, if_false, Except.mapError, handleError, throwErr]
  by_cases hz : fromWei env.withdrawRequestedWei = 0
  · rw [if_pos hz]
    refine ⟨fun _ => rfl, fun hpos _ => absurd hz (ne_of_gt hpos), ?_⟩
    constructor
    · rintro ⟨tx, htx⟩
      cases htx
    · rintro ⟨hpos, _⟩
      exact absurd hz (ne_of_gt hpos)
  · rw [if_neg hz]
    by_cases hne : fromWei env.withdrawReadyWei ≠ fromWei env.withdrawRequestedWei
    · rw [if_pos hne]
      refine ⟨fun h0 => absurd h0 hz, fun _ _ => rfl, ?_⟩
      constructor
      · rintro ⟨tx, htx⟩
        cases htx
      · rintro ⟨_, heq⟩
        exact absurd heq hne
    · rw [if_neg hne]
      push_neg at hne
      refine ⟨fun h0 => absurd h0 hz, fun _ hne2 => absurd hne hne2, ?_⟩
      constructor
      · intro _
        exact ⟨(fromWei_pos_iff _).mpr hz, hne⟩
      · intro _
        exact ⟨_, rfl⟩

/-- Closed instance of C2: at a concrete valid address with requested
1 ether and readyForClaim half an ether, the hypothesis holds and the fill
gate applies. -/
theorem c2_ethereum_claimWithdrawRequest_fill_gate_witness :
    (EthDeps.mk (fun _ => true) 100 5).isAddress "0x02" = true
    ∧ ((fromWei 1000000000000000000 = 0 →
        Ethereum.claimWithdrawRequest "0x02" (EthDeps.mk (fun _ => true) 100 5)
          (EthAdapterState.mk "0xacc" "0xpool" "0xtr" "url")
          (EthReads.mk 0 0 0 1000000000000000000 500000000000000000 21000)
          = Except.error (EthFailure.coded EthErrorCode.ZERO_UNSTAKE_ERROR none))
      ∧ (0 < fromWei 1000000000000000000 →
          fromWei 500000000000000000 ≠ fromWei 1000000000000000000 →
          Ethereum.claimWithdrawRequest "0x02" (EthDeps.mk (fun _ => true) 100 5)
            (EthAdapterState.mk "0xacc" "0xpool" "0xtr" "url")
            (EthReads.mk 0 0 0 1000000000000000000 500000000000000000 21000)
            = Except.error
                (EthFailure.coded EthErrorCode.NOT_FILLED_UNSTAKE_MESSAGE none))
      ∧ ((∃ tx, Ethereum.claimWithdrawRequest "0x02"
            (EthDeps.mk (fun _ => true) 100 5)
            (EthAdapterState.mk "0xacc" "0xpool" "0xtr" "url")
            (EthReads.mk 0 0 0 1000000000000000000 500000000000000000 21000)
            = Except.ok tx) ↔
          (0 < fromWei 1000000000000000000
            ∧ fromWei 500000000000000000 = fromWei 1000000000000000000))) :=
  ⟨rfl, c2_ethereum_claimWithdrawRequest_fill_gate "0x02"
    (EthDeps.mk (fun _ => true) 100 5)
    (EthAdapterState.mk "0xacc" "0xpool" "0xtr" "url")
    (EthReads.mk 0 0 0 1000000000000000000 500000000000000000 21000) rfl⟩

/-- C3: for the Ethereum unstakePending with a valid address, pending balance
P and requested amount A: a zero P fails; A exceeding P fails carrying P; a
nonzero remainder P - A strictly below the minimum stake read fails with
INSUFFICIENT_PENDING_BALANCE_ERROR; and a remainder of exactly zero builds
the transaction without the minimum-stake check being applied. -/
theorem c3_ethereum_unstakePending_dust_gate
    (address : String) (amountWei : Nat)
    (deps : EthDeps) (s : EthAdapterState) (env : EthReads)
    (haddr : deps.isAddress address = true) :
    (fromWei env.pendingBalanceOfWei = 0 →
      Ethereum.unstakePending address amountWei deps s env
        = Except.error (EthFailure.coded EthErrorCode.ZERO_UNSTAKE_MESSAGE none))
    ∧ (fromWei env.pendingBalanceOfWei ≠ 0 →
        fromWei env.pendingBalanceOfWei < fromWei amountWei →
        Ethereum.unstakePending address amountWei deps s env
          = Except.error
              (EthFailure.coded EthErrorCode.AMOUNT_GREATER_THAN_PENDING_BALANCE_ERROR
                (some (ErrDetail.num (fromWei env.pendingBalanceOfWei)))))
    ∧ (fromWei env.pendingBalanceOfWei ≠ 0 →
        fromWei amountWei ≤ fromWei env.pendingBalanceOfWei →
        fromWei env.pendingBalanceOfWei - fromWei amountWei ≠ 0 →
        fromWei env.pendingBalanceOfWei - fromWei amountWei
          < fromWei env.minStakeAmountWei →
        Ethereum.unstakePending address amountWei deps s env
          = Except.error
              (EthFailure.coded EthErrorCode.INSUFFICIENT_PENDING_BALANCE_ERROR
                (some (ErrDetail.num (fromWei env.minStakeAmountWei)))))
    ∧ (fromWei env.pendingBalanceOfWei ≠ 0 →
        fromWei amountWei = fromWei env.pendingBalanceOfWei →
        ∃ tx, Ethereum.unstakePending address amountWei deps s env
          = Except.ok tx) := by
  unfold Ethereum.unstakePending Ethereum.pendingBalanceOf Ethereum.minStakeAmount
  rw [haddr]
  simp only [Bool.true_eq_false, if_false, Except.mapError, handleError, throwErr]
  by_cases hz : fromWei env.pendingBalanceOfWei = 0
  · rw [if_pos hz]
    exact ⟨fun _ => rfl, fun hnz => absurd hz hnz, fun hnz => absurd hz hnz,
      fun hnz => absurd hz hnz⟩
  · rw [if_neg hz]
    by_cases hgt : fromWei env.pendingBalanceOfWei < fromWei amountWei
    · rw [if_pos hgt]
      refine ⟨fun h0 => absurd h0 hz, fun _ _ => rfl,
        fun _ hle => absurd hgt (not_lt.mpr hle), fun _ heq => ?_⟩
      rw [heq] at hgt
      exact absurd hgt (lt_irrefl _)
    · rw [if_neg hgt]
      by_cases hrem : fromWei env.pendingBalanceOfWei - fromWei amountWei ≠ 0
      · rw [if_pos hrem]
        by_cases hmin : fromWei env.pendingBalanceOfWei - fromWei amountWei
            < fromWei env.minStakeAmountWei
        · rw [if_pos hmin]
          refine ⟨fun h0 => absurd h0 hz, fun _ hlt => absurd hlt hgt,
            fun _ _ _ _ => rfl, fun _ heq => absurd (sub_eq_zero.mpr heq.symm) hrem⟩
        · rw [if_neg hmin]
          exact ⟨fun h0 => absurd h0 hz, fun _ hlt => absurd hlt hgt,
            fun _ _ _ hmin2 => absurd hmin2 hmin, fun _ _ => ⟨_, rfl⟩⟩
      · rw [if_neg hrem]
        push_neg at hrem
        exact ⟨fun h0 => absurd h0 hz, fun _ hlt => absurd hlt hgt,
          fun _ _ hne _ => absurd hrem hne, fun _ _ => ⟨_, rfl⟩⟩

/-- Closed instance of C3: at a concrete valid address with pending balance 2
ether, request 1.5 ether and minimum stake 1 ether, the hypothesis holds and
the dust gate applies. -/
theorem c3_ethereum_unstakePending_dust_gate_witness :
    (EthDeps.mk (fun _ => true) 100 5).isAddress "0x03" = true
    ∧ ((fromWei 2000000000000000000 = 0 →
        Ethereum.unstakePending "0x03" 1500000000000000000
          (EthDeps.mk (fun _ => true) 100 5)
          (EthAdapterState.mk "0xacc" "0xpool" "0xtr" "url")
          (EthReads.mk 0 2000000000000000000 1000000000000000000 0 0 21000)
          = Except.error (EthFailure.coded EthErrorCode.ZERO_UNSTAKE_MESSAGE none))
      ∧ (fromWei 2000000000000000000 ≠ 0 →
          fromWei 2000000000000000000 < fromWei 1500000000000000000 →
          Ethereum.unstakePending "0x03" 1500000000000000000
            (EthDeps.mk (fun _ => true) 100 5)
            (EthAdapterState.mk "0xacc" "0xpool" "0xtr" "url")
            (EthReads.mk 0 2000000000000000000 1000000000000000000 0 0 21000)
            = Except.error
                (EthFailure.coded
                  EthErrorCode.AMOUNT_GREATER_THAN_PENDING_BALANCE_ERROR
                  (some (ErrDetail.num (fromWei 2000000000000000000)))))
      ∧ (fromWei 2000000000000000000 ≠ 0 →
          fromWei 1500000000000000000 ≤ fromWei 2000000000000000000 →
          fromWei 2000000000000000000 - fromWei 1500000000000000000 ≠ 0 →
          fromWei 2000000000000000000 - fromWei 1500000000000000000
            < fromWei 1000000000000000000 →
          Ethereum.unstakePending "0x03" 1500000000000000000
            (EthDeps.mk (fun _ => true) 100 5)
            (EthAdapterState.mk "0xacc" "0xpool" "0xtr" "url")
            (EthReads.mk 0 2000000000000000000 1000000000000000000 0 0 21000)
            = Except.error
                (EthFailure.coded EthErrorCode.INSUFFICIENT_PENDING_BALANCE_ERROR
                  (some (ErrDetail.num (fromWei 1000000000000000000)))))
      ∧ (fromWei 2000000000000000000 ≠ 0 →
          fromWei 1500000000000000000 = fromWei 2000000000000000000 →
          ∃ tx, Ethereum.unstakePending "0x03" 1500000000000000000
            (EthDeps.mk (fun _ => true) 100 5)
            (EthAdapterState.mk "0xacc" "0xpool" "0xtr" "url")
            (EthReads.mk 0 2000000000000000000 1000000000000000000 0 0 21000)
            = Except.ok tx)) :=
  ⟨rfl, c3_ethereum_unstakePending_dust_gate "0x03" 1500000000000000000
    (EthDeps.mk (fun _ => true) 100 5)
    (EthAdapterState.mk "0xacc" "0xpool" "0xtr" "url")
    (EthReads.mk 0 2000000000000000000 1000000000000000000 0 0 21000) rfl⟩

/-- C4: for the Polygon claimUndelegate, a zero resolved unbond amount fails
with the plain Nothing-to-claim message; an epoch earlier than withdrawEpoch
plus WITHDRAW_EPOCH_DELAY fails with the plain epoch-delay message; and
otherwise the returned transaction encodes unstakeClaimTokens_newPOL when
isPOL and unstakeClaimTokens_new when not, applied to the resolved unbond
nonce. -/
theorem c4_polygon_claimUndelegate_gate
    (address : String) (unbondNonce : Nat) (isPOL : Bool)
    (cfg : PolyCfg) (env : PolyEnv) :
    ((Polygon.getUnbond cfg env unbondNonce).amount = 0 →
      Polygon.claimUndelegate address unbondNonce isPOL cfg env
        = Except.error (PolyErr.plain PolyPlainMsg.nothingToClaim))
    ∧ ((Polygon.getUnbond cfg env unbondNonce).amount ≠ 0 →
        env.currentEpoch < (Polygon.getUnbond cfg env unbondNonce).withdrawEpoch
          + cfg.withdrawEpochDelay →
        Polygon.claimUndelegate address unbondNonce isPOL cfg env
          = Except.error (PolyErr.plain PolyPlainMsg.epochDelay))
    ∧ ((Polygon.getUnbond cfg env unbondNonce).amount ≠ 0 →
        ¬ env.currentEpoch < (Polygon.getUnbond cfg env unbondNonce).withdrawEpoch
          + cfg.withdrawEpochDelay →
        Polygon.claimUndelegate address unbondNonce isPOL cfg env
          = Except.ok
              { fromAddr := address
                toAddr := cfg.addressContractBuy
                gasLimit := cfg.claimUndelegateBaseGas
                data := CallData.mk
                  (if isPOL then "unstakeClaimTokens_newPOL"
                    else "unstakeClaimTokens_new")
                  [CallArg.num
                    (if unbondNonce = 0 then env.unbondNoncesRes
                      else unbondNonce)] }) := by
  simp only [Polygon.claimUndelegate]
  by_cases hz : (Polygon.getUnbond cfg env unbondNonce).amount = 0
  · rw [if_pos hz]
    exact ⟨fun _ => rfl, fun hnz => absurd hz hnz, fun hnz => absurd hz hnz⟩
  · rw [if_neg hz]
    by_cases he : env.currentEpoch
        < (Polygon.getUnbond cfg env unbondNonce).withdrawEpoch
          + cfg.withdrawEpochDelay
    · rw [if_pos he]
      exact ⟨fun h0 => absurd h0 hz, fun _ _ => rfl, fun _ hge => absurd he hge⟩
    · rw [if_neg he]
      refine ⟨fun h0 => absurd h0 hz, fun _ hlt => absurd hlt he, fun _ _ => ?_⟩
      simp [Polygon.getUnbond]

/-- Closed instance of C4: with a concrete unbond record of 1 ether at
withdrawEpoch 5, delay 80 and current epoch 100, the gate applies (here in
its claimable region, for both the POL and the legacy function name). -/
theorem c4_polygon_claimUndelegate_gate_witness :
    ((Polygon.getUnbond
        (PolyCfg.mk 1000000000000000000 80 220000 200000 "0xbuy" "0xstk" "0xap" "0xapol")
        (PolyEnv.mk true true 0 7 (fun _ => (1000000000000000000, 5)) 100 21000)
        0).amount = 0 →
      Polygon.claimUndelegate "0x04" 0 true
        (PolyCfg.mk 1000000000000000000 80 220000 200000 "0xbuy" "0xstk" "0xap" "0xapol")
        (PolyEnv.mk true true 0 7 (fun _ => (1000000000000000000, 5)) 100 21000)
        = Except.error (PolyErr.plain PolyPlainMsg.nothingToClaim))
    ∧ ((Polygon.getUnbond
          (PolyCfg.mk 1000000000000000000 80 220000 200000 "0xbuy" "0xstk" "0xap" "0xapol")
          (PolyEnv.mk true true 0 7 (fun _ => (1000000000000000000, 5)) 100 21000)
          0).amount ≠ 0 →
        (PolyEnv.mk true true 0 7 (fun _ => (1000000000000000000, 5)) 100 21000).currentEpoch
          < (Polygon.getUnbond
              (PolyCfg.mk 1000000000000000000 80 220000 200000 "0xbuy" "0xstk" "0xap" "0xapol")
              (PolyEnv.mk true true 0 7 (fun _ => (1000000000000000000, 5)) 100 21000)
              0).withdrawEpoch + 80 →
        Polygon.claimUndelegate "0x04" 0 true
          (PolyCfg.mk 1000000000000000000 80 220000 200000 "0xbuy" "0xstk" "0xap" "0xapol")
          (PolyEnv.mk true true 0 7 (fun _ => (1000000000000000000, 5)) 100 21000)
          = Except.error (PolyErr.plain PolyPlainMsg.epochDelay))
    ∧ ((Polygon.getUnbond
          (PolyCfg.mk 1000000000000000000 80 220000 200000 "0xbuy" "0xstk" "0xap" "0xapol")
          (PolyEnv.mk true true 0 7 (fun _ => (1000000000000000000, 5)) 100 21000)
          0).amount ≠ 0 →
        ¬ (PolyEnv.mk true true 0 7 (fun _ => (1000000000000000000, 5)) 100 21000).currentEpoch
          < (Polygon.getUnbond
              (PolyCfg.mk 1000000000000000000 80 220000 200000 "0xbuy" "0xstk" "0xap" "0xapol")
              (PolyEnv.mk true true 0 7 (fun _ => (1000000000000000000, 5)) 100 21000)
              0).withdrawEpoch + 80 →
        Polygon.claimUndelegate "0x04" 0 true
          (PolyCfg.mk 1000000000000000000 80 220000 200000 "0xbuy" "0xstk" "0xap" "0xapol")
          (PolyEnv.mk true true 0 7 (fun _ => (1000000000000000000, 5)) 100 21000)
          = Except.ok
              { fromAddr := "0x04"
                toAddr := "0xbuy"
                gasLimit := 200000
                data := CallData.mk "unstakeClaimTokens_newPOL" [CallArg.num 7] }) := by
  have h := c4_polygon_claimUndelegate_gate "0x04" 0 true
    (PolyCfg.mk 1000000000000000000 80 220000 200000 "0xbuy" "0xstk" "0xap" "0xapol")
    (PolyEnv.mk true true 0 7 (fun _ => (1000000000000000000, 5)) 100 21000)
  simpa using h

/-- Helper: when the Ethereum unstake returns a transaction, its call data is
the pool unstake function applied to the wei amount, the clamped interchange
count and the source. -/
theorem ethereum_unstake_ok_data
    (address : String) (amountWei k source : Nat)
    (deps : EthDeps) (s : EthAdapterState) (env : EthReads) (tx : EthTransaction)
    (htx : Ethereum.unstake address amountWei k source deps s env = Except.ok tx) :
    tx.data = CallData.mk "unstake"
      [CallArg.num amountWei,
        CallArg.num (if UINT16_MAX < k then UINT16_MAX else k),
        CallArg.num source] := by
  unfold Ethereum.unstake Ethereum.autocompoundBalanceOf at htx
  cases ha : deps.isAddress address
  · rw [ha] at htx
    simp at htx
  · rw [ha] at htx
    simp only [Bool.true_eq_false, if_false, Except.mapError, handleError,
      throwErr] at htx
    by_cases hb : fromWei env.autocompoundBalanceOfWei < fromWei amountWei
    · rw [if_pos hb] at htx
      cases htx
    · rw [if_neg hb] at htx
      injection htx with h
      rw [← h]
      rfl

/-- C5: the oversized allowedInterchangeNum is silently saturated in both the
Ethereum unstake and simulateUnstake: any n above the 16-bit maximum behaves
exactly as 65535 and encodes exactly 65535 into the contract call (never a
rejection), while any m at or below 65535 is encoded unchanged. -/
theorem c5_ethereum_interchange_clamp
    (address : String) (amountWei source n m : Nat)
    (deps : EthDeps) (s : EthAdapterState) (env : EthReads) (sim : CallData → Nat)
    (hover : UINT16_MAX < n) (hin : m ≤ UINT16_MAX) :
    (Ethereum.unstake address amountWei n source deps s env
      = Ethereum.unstake address amountWei UINT16_MAX source deps s env)
    ∧ (∀ tx, Ethereum.unstake address amountWei n source deps s env = Except.ok tx →
        tx.data = CallData.mk "unstake"
          [CallArg.num amountWei, CallArg.num UINT16_MAX, CallArg.num source])
    ∧ (Ethereum.simulateUnstake address amountWei n source deps env sim
      = Ethereum.simulateUnstake address amountWei UINT16_MAX source deps env sim)
    ∧ (∀ tx, Ethereum.unstake address amountWei m source deps s env = Except.ok tx →
        tx.data = CallData.mk "unstake"
          [CallArg.num amountWei, CallArg.num m, CallArg.num source])
    ∧ (deps.isAddress address = true →
        ¬ fromWei env.autocompoundBalanceOfWei < fromWei amountWei →
        Ethereum.simulateUnstake address amountWei m source deps env sim
          = Except.ok (fromWei (sim (CallData.mk "unstake"
              [CallArg.num amountWei, CallArg.num m, CallArg.num source])))) := by
  have hcl : (if UINT16_MAX < n then UINT16_MAX else n) = UINT16_MAX := if_pos hover
  have hclm : (if UINT16_MAX < m then UINT16_MAX else m) = m :=
    if_neg (not_lt.mpr hin)
  have hclmax : (if UINT16_MAX < UINT16_MAX then UINT16_MAX else UINT16_MAX)
      = UINT16_MAX := if_neg (lt_irrefl _)
  refine ⟨?_, ?_, ?_, ?_, ?_⟩
  · simp only [Ethereum.unstake, hcl, hclmax]
  · intro tx htx
    have h := ethereum_unstake_ok_data address amountWei n source deps s env tx htx
    rw [hcl] at h
    exact h
  · simp only [Ethereum.simulateUnstake, hcl, hclmax]
  · intro tx htx
    have h := ethereum_unstake_ok_data address amountWei m source deps s env tx htx
    rw [hclm] at h
    exact h
  · intro ha hb
    simp only [Ethereum.simulateUnstake, Ethereum.autocompoundBalanceOf, ha,
      Bool.true_eq_false, if_false, Except.mapError, handleError, throwErr, hclm]
    rw [if_neg hb]

/-- Closed instance of C5: at the concrete oversized input 70000 and the
in-range input 2, the hypotheses hold and the clamp applies. -/
theorem c5_ethereum_interchange_clamp_witness :
    UINT16_MAX < 70000 ∧ 2 ≤ UINT16_MAX
    ∧ ((Ethereum.unstake "0x05" 1000000000000000000 70000 0
          (EthDeps.mk (fun _ => true) 100 5)
          (EthAdapterState.mk "0xacc" "0xpool" "0xtr" "url")
          (EthReads.mk 2000000000000000000 0 0 0 0 21000)
        = Ethereum.unstake "0x05" 1000000000000000000 UINT16_MAX 0
          (EthDeps.mk (fun _ => true) 100 5)
          (EthAdapterState.mk "0xacc" "0xpool" "0xtr" "url")
          (EthReads.mk 2000000000000000000 0 0 0 0 21000))
      ∧ (∀ tx, Ethereum.unstake "0x05" 1000000000000000000 70000 0
            (EthDeps.mk (fun _ => true) 100 5)
            (EthAdapterState.mk "0xacc" "0xpool" "0xtr" "url")
            (EthReads.mk 2000000000000000000 0 0 0 0 21000) = Except.ok tx →
          tx.data = CallData.mk "unstake"
            [CallArg.num 1000000000000000000, CallArg.num UINT16_MAX, CallArg.num 0])
      ∧ (Ethereum.simulateUnstake "0x05" 1000000000000000000 70000 0
            (EthDeps.mk (fun _ => true) 100 5)
            (EthReads.mk 2000000000000000000 0 0 0 0 21000)
            (fun _ => 500000000000000000)
        = Ethereum.simulateUnstake "0x05" 1000000000000000000 UINT16_MAX 0
            (EthDeps.mk (fun _ => true) 100 5)
            (EthReads.mk 2000000000000000000 0 0 0 0 21000)
            (fun _ => 500000000000000000))
      ∧ (∀ tx, Ethereum.unstake "0x05" 1000000000000000000 2 0
            (EthDeps.mk (fun _ => true) 100 5)
            (EthAdapterState.mk "0xacc" "0xpool" "0xtr" "url")
            (EthReads.mk 2000000000000000000 0 0 0 0 21000) = Except.ok tx →
          tx.data = CallData.mk "unstake"
            [CallArg.num 1000000000000000000, CallArg.num 2, CallArg.num 0])
      ∧ ((EthDeps.mk (fun _ => true) 100 5).isAddress "0x05" = true →
          ¬ fromWei 2000000000000000000 < fromWei 1000000000000000000 →
          Ethereum.simulateUnstake "0x05" 1000000000000000000 2 0
            (EthDeps.mk (fun _ => true) 100 5)
            (EthReads.mk 2000000000000000000 0 0 0 0 21000)
            (fun _ => 500000000000000000)
          = Except.ok (fromWei ((fun _ => 500000000000000000) (CallData.mk "unstake"
              [CallArg.num 1000000000000000000, CallArg.num 2, CallArg.num 0]))))) :=
  ⟨by decide, by decide,
    c5_ethereum_interchange_clamp "0x05" 1000000000000000000 0 70000 2
      (EthDeps.mk (fun _ => true) 100 5)
      (EthAdapterState.mk "0xacc" "0xpool" "0xtr" "url")
      (EthReads.mk 2000000000000000000 0 0 0 0 21000)
      (fun _ => 500000000000000000) (by decide) (by decide)⟩

/-- C6: stake/approve-style minimum-amount validation fails before any RPC
call: for a valid address and a parsed base-unit amount strictly below the
configured minimum, the Ethereum stake fails with MIN_AMOUNT_ERROR and the
Polygon approve fails with its plain minimum-amount error, and in both cases
the trace of RPC-client calls performed by the run is empty (in particular no
gas estimation happened). -/
theorem c6_min_amount_validation_before_rpc
    (address : String) (amountWei source : Nat)
    (deps : EthDeps) (s : EthAdapterState) (env : EthReads)
    (haddr : deps.isAddress address = true)
    (hlt : amountWei < deps.minAmountWei)
    (paddress : String) (pAmountWei : Nat) (isPOL : Bool)
    (cfg : PolyCfg) (penv : PolyEnv)
    (hplt : pAmountWei < cfg.minAmountWei) :
    Ethereum.stake address amountWei source deps s env
      = (Except.error (EthFailure.coded EthErrorCode.MIN_AMOUNT_ERROR
          (some (ErrDetail.num (deps.minAmountWei : ℚ)))), [])
    ∧ Polygon.approve paddress pAmountWei isPOL cfg penv
      = (Except.error
          (PolyErr.plain (PolyPlainMsg.minAmountApprove cfg.minAmountWei)), []) := by
  constructor
  · unfold Ethereum.stake
    rw [haddr]
    simp only [Bool.true_eq_false, if_false, throwErr]
    rw [if_pos hlt]
  · unfold Polygon.approve
    rw [if_pos hplt]

/-- Closed instance of C6: at concrete below-minimum amounts on both
adapters, the hypotheses hold and the validation fails with an empty RPC
trace. -/
theorem c6_min_amount_validation_before_rpc_witness :
    (EthDeps.mk (fun _ => true) 100000000000000000 5).isAddress "0x06" = true
    ∧ 0 < (EthDeps.mk (fun _ => true) 100000000000000000 5).minAmountWei
    ∧ 0 < (PolyCfg.mk 1000000000000000000 80 220000 200000 "0xbuy" "0xstk" "0xap" "0xapol").minAmountWei
    ∧ (Ethereum.stake "0x06" 0 0 (EthDeps.mk (fun _ => true) 100000000000000000 5)
        (EthAdapterState.mk "0xacc" "0xpool" "0xtr" "url")
        (EthReads.mk 0 0 0 0 0 21000)
      = (Except.error (EthFailure.coded EthErrorCode.MIN_AMOUNT_ERROR
          (some (ErrDetail.num ((100000000000000000 : Nat) : ℚ)))), []))
    ∧ (Polygon.approve "0xp06" 0 false
        (PolyCfg.mk 1000000000000000000 80 220000 200000 "0xbuy" "0xstk" "0xap" "0xapol")
        (PolyEnv.mk true true 0 0 (fun _ => (0, 0)) 0 21000)
      = (Except.error (PolyErr.plain (PolyPlainMsg.minAmountApprove 1000000000000000000)), [])) := by
  have h := c6_min_amount_validation_before_rpc "0x06" 0 0
    (EthDeps.mk (fun _ => true) 100000000000000000 5)
    (EthAdapterState.mk "0xacc" "0xpool" "0xtr" "url")
    (EthReads.mk 0 0 0 0 0 21000) rfl (by decide)
    "0xp06" 0 false
    (PolyCfg.mk 1000000000000000000 80 220000 200000 "0xbuy" "0xstk" "0xap" "0xapol")
    (PolyEnv.mk true true 0 0 (fun _ => (0, 0)) 0 21000) (by decide)
  exact ⟨rfl, by decide, by decide, h.1, h.2⟩

/-- C7: an Ethereum selectNetwork call with an identifier absent from the
network table fails with NETWORK_NOT_SUPPORTED carrying the identifier and
leaves the adapter state (RPC client URL and all three contract bindings)
unchanged, so a subsequent call with a known identifier behaves exactly as it
would have on the original state and succeeds. -/
theorem c7_ethereum_selectNetwork_unknown_leaves_state
    (tbl : String → Option EthNetworkAddresses) (bad good : String)
    (url gurl : Option String) (s : EthAdapterState) (a : EthNetworkAddresses)
    (hbad : tbl bad = none) (hgood : tbl good = some a) :
    Ethereum.initializeNetwork tbl bad url
      = Except.error (EthFailure.coded EthErrorCode.NETWORK_NOT_SUPPORTED
          (some (ErrDetail.str bad)))
    ∧ Ethereum.selectNetworkState tbl bad url s = s
    ∧ Ethereum.selectNetworkState tbl good gurl
        (Ethereum.selectNetworkState tbl bad url s)
      = Ethereum.selectNetworkState tbl good gurl s
    ∧ ∃ s2, Ethereum.initializeNetwork tbl good gurl = Except.ok s2 := by
  have h1 : Ethereum.initializeNetwork tbl bad url
      = Except.error (EthFailure.coded EthErrorCode.NETWORK_NOT_SUPPORTED
          (some (ErrDetail.str bad))) := by
    unfold Ethereum.initializeNetwork
    rw [hbad]
    rfl
  have h2 : Ethereum.selectNetworkState tbl bad url s = s := by
    unfold Ethereum.selectNetworkState
    rw [h1]
  refine ⟨h1, h2, by rw [h2], ?_⟩
  unfold Ethereum.initializeNetwork
  rw [hgood]
  exact ⟨_, rfl⟩

/-- Closed instance of C7: over a concrete one-row table, the unknown
identifier fails and leaves a concrete state unchanged, and the known
identifier still rebinds. -/
theorem c7_ethereum_selectNetwork_unknown_leaves_state_witness :
    (fun n => if n = "mainnet"
      then some (EthNetworkAddresses.mk "0xacc" "0xpool" "0xtr" "urlm")
      else none) "solana" = none
    ∧ (fun n => if n = "mainnet"
        then some (EthNetworkAddresses.mk "0xacc" "0xpool" "0xtr" "urlm")
        else none) "mainnet"
      = some (EthNetworkAddresses.mk "0xacc" "0xpool" "0xtr" "urlm")
    ∧ (Ethereum.initializeNetwork
        (fun n => if n = "mainnet"
          then some (EthNetworkAddresses.mk "0xacc" "0xpool" "0xtr" "urlm")
          else none) "solana" none
      = Except.error (EthFailure.coded EthErrorCode.NETWORK_NOT_SUPPORTED
          (some (ErrDetail.str "solana"))))
    ∧ (Ethereum.selectNetworkState
        (fun n => if n = "mainnet"
          then some (EthNetworkAddresses.mk "0xacc" "0xpool" "0xtr" "urlm")
          else none) "solana" none
        (EthAdapterState.mk "0xa0" "0xp0" "0xt0" "url0")
      = EthAdapterState.mk "0xa0" "0xp0" "0xt0" "url0")
    ∧ (∃ s2, Ethereum.initializeNetwork
        (fun n => if n = "mainnet"
          then some (EthNetworkAddresses.mk "0xacc" "0xpool" "0xtr" "urlm")
          else none) "mainnet" none = Except.ok s2) := by
  have h := c7_ethereum_selectNetwork_unknown_leaves_state
    (fun n => if n = "mainnet"
      then some (EthNetworkAddresses.mk "0xacc" "0xpool" "0xtr" "urlm")
      else none) "solana" "mainnet" none none
    (EthAdapterState.mk "0xa0" "0xp0" "0xt0" "url0")
    (EthNetworkAddresses.mk "0xacc" "0xpool" "0xtr" "urlm")
    (by decide) (by decide)
  exact ⟨by decide, by decide, h.1, h.2.1, h.2.2.2⟩

/-- Counterexample to C8: a concrete successful Polygon approve call, the one
estimate-based transaction builder of that adapter, returns a transaction
whose gasLimit is exactly the raw gas estimate 21000 with no reserve added,
against the claim that every estimate-using operation pads the estimate and
never uses it raw. -/
theorem c8_polygon_raw_estimate_counterexample :
    ((Polygon.approve "0x08" 2000000000000000000 false
        (PolyCfg.mk 1000000000000000000 80 220000 200000 "0xbuy" "0xstk" "0xap" "0xapol")
        (PolyEnv.mk true true 0 0 (fun _ => (0, 0)) 0 21000)).fst
      = Except.ok (PolyTransactionRequest.mk "0x08" "0xap" 21000
          (CallData.mk "approve"
            [CallArg.addr "0xstk", CallArg.num 2000000000000000000])))
    ∧ (PolyEnv.mk true true 0 0 (fun _ => (0, 0)) 0 21000).estimateGas = 21000 := by
  constructor
  · rfl
  · rfl

/-- C8 as amended: the Ethereum and Berrachain adapters set the gas limit to
the raw estimate plus their fixed reserve (decimal addition on Ethereum,
plain integer addition on Berrachain), while the Polygon estimate-based
builder uses the raw estimate itself as the gas limit, adding no reserve
(its remaining operations use fixed gas constants and no estimate). -/
theorem c8_gas_limit_policy_amended (est reserve value : Nat) (data : CallData)
    (address contractAddress : String) :
    Ethereum.calculateGasLimit est reserve = est + reserve
    ∧ (Ethereum.getTransaction data address contractAddress value reserve
        est).gasLimit = est + reserve
    ∧ Berrachain.calculateGasLimit est reserve = est + reserve
    ∧ (Berrachain.getTransaction data address contractAddress reserve
        est).gasLimit = est + reserve
    ∧ (Polygon.getTransaction data address contractAddress est).gasLimit = est :=
  ⟨rfl, rfl, rfl, rfl, rfl⟩

/-- Counterexample to C9: a concrete Polygon claimUndelegate call whose
unbond read returns a zero amount exits with a plain Error carrying only the
Nothing-to-claim message and no code at all, against the claim that every
failure exiting a public Polygon method carries a code of the closed
vocabulary. -/
theorem c9_polygon_uncoded_failure_counterexample :
    Polygon.claimUndelegate "0x09" 0 false
      (PolyCfg.mk 1000000000000000000 80 220000 200000 "0xbuy" "0xstk" "0xap" "0xapol")
      (PolyEnv.mk true true 0 3 (fun _ => (0, 0)) 100 21000)
      = Except.error (PolyErr.plain PolyPlainMsg.nothingToClaim)
    ∧ (PolyErr.plain PolyPlainMsg.nothingToClaim).carriesCode = false := by
  constructor
  · simp [Polygon.claimUndelegate, Polygon.getUnbond, fromWei]
  · rfl

/-- C9 as amended: Polygon methods whose failures pass through handleError
exit with coded errors of the closed vocabulary, as delegate does for an
insufficient allowance, but claimUndelegate sits outside any try block and
its validation failures exit as plain uncoded Errors. -/
theorem c9_polygon_error_mapping_amended
    (address token : String) (unbondNonce amountWei : Nat) (isPOL : Bool)
    (cfg : PolyCfg) (env : PolyEnv)
    (hzero : (Polygon.getUnbond cfg env unbondNonce).amount = 0)
    (htok : env.checkTokenOk = true)
    (hmin : ¬ amountWei < cfg.minAmountWei)
    (hallow : env.allowance ≠ 0) (hlt : env.allowance < amountWei) :
    (Polygon.claimUndelegate address unbondNonce isPOL cfg env
        = Except.error (PolyErr.plain PolyPlainMsg.nothingToClaim)
      ∧ (PolyErr.plain PolyPlainMsg.nothingToClaim).carriesCode = false)
    ∧ (Polygon.delegate token address amountWei isPOL cfg env
        = Except.error (PolyErr.coded "ALLOWANCE_ERR" none)
      ∧ (PolyErr.coded "ALLOWANCE_ERR" none).carriesCode = true) := by
  constructor
  · constructor
    · simp only [Polygon.claimUndelegate]
      rw [if_pos hzero]
    · rfl
  · constructor
    · unfold Polygon.delegate
      rw [htok]
      simp only [if_true]
      rw [if_neg hmin]
      simp only [Except.mapError, polyHandleError]
      rw [if_pos ⟨hallow, hlt⟩]
    · rfl

/-- Closed instance of the amended C9: at concrete inputs with a zero unbond
amount and an allowance of 5 wei against a 2-ether delegation, the
hypotheses hold and the amended mapping statement applies. -/
theorem c9_polygon_error_mapping_amended_witness :
    ((Polygon.getUnbond
        (PolyCfg.mk 1000000000000000000 80 220000 200000 "0xbuy" "0xstk" "0xap" "0xapol")
        (PolyEnv.mk true true 5 3 (fun _ => (0, 0)) 100 21000) 0).amount = 0)
    ∧ (PolyEnv.mk true true 5 3 (fun _ => (0, 0)) 100 21000).checkTokenOk = true
    ∧ ¬ (2000000000000000000 : Nat) < 1000000000000000000
    ∧ (PolyEnv.mk true true 5 3 (fun _ => (0, 0)) 100 21000).allowance ≠ 0
    ∧ (PolyEnv.mk true true 5 3 (fun _ => (0, 0)) 100 21000).allowance
        < 2000000000000000000
    ∧ ((Polygon.claimUndelegate "0x09a" 0 false
          (PolyCfg.mk 1000000000000000000 80 220000 200000 "0xbuy" "0xstk" "0xap" "0xapol")
          (PolyEnv.mk true true 5 3 (fun _ => (0, 0)) 100 21000)
          = Except.error (PolyErr.plain PolyPlainMsg.nothingToClaim)
        ∧ (PolyErr.plain PolyPlainMsg.nothingToClaim).carriesCode = false)
      ∧ (Polygon.delegate "tok" "0x09a" 2000000000000000000 false
          (PolyCfg.mk 1000000000000000000 80 220000 200000 "0xbuy" "0xstk" "0xap" "0xapol")
          (PolyEnv.mk true true 5 3 (fun _ => (0, 0)) 100 21000)
          = Except.error (PolyErr.coded "ALLOWANCE_ERR" none)
        ∧ (PolyErr.coded "ALLOWANCE_ERR" none).carriesCode = true)) := by
  refine ⟨?_, rfl, by decide, by decide, by decide, ?_⟩
  · simp [Polygon.getUnbond, fromWei]
  · exact c9_polygon_error_mapping_amended "0x09a" "tok" 0 2000000000000000000 false
      (PolyCfg.mk 1000000000000000000 80 220000 200000 "0xbuy" "0xstk" "0xap" "0xapol")
      (PolyEnv.mk true true 5 3 (fun _ => (0, 0)) 100 21000)
      (by simp [Polygon.getUnbond, fromWei]) rfl (by decide) (by decide) (by decide)

/-- C10: the two Ethereum operations default allowedInterchangeNum
differently, unstake to 0 and simulateUnstake to 1: called without that
parameter on the same valid address and in-balance amount, unstake encodes
interchange allowance 0 and simulateUnstake encodes allowance 1, so their
contract calls differ. -/
theorem c10_ethereum_default_interchange_differs
    (address : String) (amountWei : Nat)
    (deps : EthDeps) (s : EthAdapterState) (env : EthReads) (sim : CallData → Nat)
    (haddr : deps.isAddress address = true)
    (hle : ¬ fromWei env.autocompoundBalanceOfWei < fromWei amountWei) :
    Ethereum.unstakeDefaults address amountWei deps s env
      = Except.ok (Ethereum.getTransaction
          (CallData.mk "unstake"
            [CallArg.num amountWei, CallArg.num 0, CallArg.num 0])
          address s.poolAddress 0 deps.gasReserve env.estimateGas)
    ∧ Ethereum.simulateUnstakeDefaults address amountWei deps env sim
      = Except.ok (fromWei (sim (CallData.mk "unstake"
          [CallArg.num amountWei, CallArg.num 1, CallArg.num 0])))
    ∧ CallData.mk "unstake" [CallArg.num amountWei, CallArg.num 0, CallArg.num 0]
      ≠ CallData.mk "unstake" [CallArg.num amountWei, CallArg.num 1, CallArg.num 0] := by
  have hcl0 : (if UINT16_MAX < 0 then UINT16_MAX else 0) = 0 := if_neg (by decide)
  have hcl1 : (if UINT16_MAX < 1 then UINT16_MAX else 1) = 1 := if_neg (by decide)
  refine ⟨?_, ?_, by simp⟩
  · unfold Ethereum.unstakeDefaults Ethereum.unstake Ethereum.autocompoundBalanceOf
    rw [haddr]
    simp only [Bool.true_eq_false, if_false, Except.mapError, handleError,
      throwErr, hcl0]
    rw [if_neg hle]
  · unfold Ethereum.simulateUnstakeDefaults Ethereum.simulateUnstake
      Ethereum.autocompoundBalanceOf
    rw [haddr]
    simp only [Bool.true_eq_false, if_false, Except.mapError, handleError,
      throwErr, hcl1]
    rw [if_neg hle]

/-- Closed instance of C10: at a concrete valid address with balance 2 ether
and request 1 ether, the hypotheses hold and the two defaulted calls encode
interchange allowances 0 and 1. -/
theorem c10_ethereum_default_interchange_differs_witness :
    (EthDeps.mk (fun _ => true) 100 5).isAddress "0x10" = true
    ∧ ¬ fromWei 2000000000000000000 < fromWei 1000000000000000000
    ∧ (Ethereum.unstakeDefaults "0x10" 1000000000000000000
        (EthDeps.mk (fun _ => true) 100 5)
        (EthAdapterState.mk "0xacc" "0xpool" "0xtr" "url")
        (EthReads.mk 2000000000000000000 0 0 0 0 21000)
      = Except.ok (Ethereum.getTransaction
          (CallData.mk "unstake"
            [CallArg.num 1000000000000000000, CallArg.num 0, CallArg.num 0])
          "0x10" "0xpool" 0 5 21000))
    ∧ (Ethereum.simulateUnstakeDefaults "0x10" 1000000000000000000
        (EthDeps.mk (fun _ => true) 100 5)
        (EthReads.mk 2000000000000000000 0 0 0 0 21000)
        (fun _ => 500000000000000000)
      = Except.ok (fromWei ((fun _ => 500000000000000000) (CallData.mk "unstake"
          [CallArg.num 1000000000000000000, CallArg.num 1, CallArg.num 0]))))
    ∧ CallData.mk "unstake"
        [CallArg.num 1000000000000000000, CallArg.num 0, CallArg.num 0]
      ≠ CallData.mk "unstake"
        [CallArg.num 1000000000000000000, CallArg.num 1, CallArg.num 0] := by
  have hb : ¬ fromWei 2000000000000000000 < fromWei 1000000000000000000 := by
    unfold fromWei
    rw [not_lt, div_le_div_iff_of_pos_right]
    · norm_num
    · norm_num
  have h := c10_ethereum_default_interchange_differs "0x10" 1000000000000000000
    (EthDeps.mk (fun _ => true) 100 5)
    (EthAdapterState.mk "0xacc" "0xpool" "0xtr" "url")
    (EthReads.mk 2000000000000000000 0 0 0 0 21000)
    (fun _ => 500000000000000000) rfl hb
  exact ⟨rfl, hb, h.1, h.2.1, h.2.2⟩
